import Mathlib

/-!
# Verification of the LocalSocial post queue and rate gate

Shallow embedding of the post publishing queue (the queue module, read here
as `src/unnamed/part_002`) and of the Facebook API rate-limit tracker
(`src/src/lib/facebook.js`).  Pure logic is translated directly; network
responses are abstracted as an environment (`FBEnv`) of per-call outcomes,
and the rate tracker's mutable state is threaded explicitly.  All timestamps
are milliseconds as `Nat`.
-/

/-! ## Rate limit tracker (`src/src/lib/facebook.js`, lines 20-39)

`rateLimitTracker` is a single module-level object: one `requests` counter,
one `resetTime`, one `maxRequests`, shared by every `facebookAPI` method
regardless of target platform. -/

/-- State of the (single, module-global) `rateLimitTracker`. -/
structure RateLimitState where
  requests : Nat
  resetTime : Nat
  maxRequests : Nat
deriving DecidableEq

/-- One hour in milliseconds: the window length used by `checkLimit`. -/
def windowMs : Nat := 60 * 60 * 1000

/-- Lazy window roll (facebook.js lines 26-30): if `now > resetTime` the
counter is zeroed and the boundary moved to `now + windowMs`. -/
def rollWindow (now : Nat) (s : RateLimitState) : RateLimitState :=
  if s.resetTime < now then { s with requests := 0, resetTime := now + windowMs }
  else s

/-- `rateLimitTracker.checkLimit()` (facebook.js lines 25-38).  After the
lazy roll, if `requests >= maxRequests` a `RateLimitError` is thrown carrying
`Math.ceil((resetTime - now)/1000)` seconds, leaving the counter unchanged;
otherwise the counter is incremented. -/
def checkLimit (now : Nat) (s : RateLimitState) : Except Nat RateLimitState :=
  let s1 := rollWindow now s
  if s1.maxRequests ≤ s1.requests then
    Except.error ((s1.resetTime - now + 999) / 1000)
  else
    Except.ok { s1 with requests := s1.requests + 1 }

/-- A sequence of `checkLimit` calls at the given timestamps, recording each
grant (`.ok ()`) or denial (`.error retryAfterSeconds`) and the final tracker
state.  A denial leaves the tracker state unchanged, as in the source (the
throw happens before the increment). -/
def runChecks : List Nat → RateLimitState → List (Except Nat Unit) × RateLimitState
  | [], s => ([], s)
  | t :: ts, s =>
    match checkLimit t s with
    | Except.ok s' =>
      let r := runChecks ts s'
      (Except.ok () :: r.1, r.2)
    | Except.error w =>
      let r := runChecks ts s
      (Except.error w :: r.1, r.2)

/-! ## Post queue data model (`src/unnamed/part_002`) -/

/-- `POST_STATUS` (part_002 lines 8-15). -/
inductive PostStatus where
  | scheduled
  | processing
  | posting
  | posted
  | failed
  | cancelled
deriving DecidableEq

/-- `ERROR_TYPES` (part_002 lines 18-26). -/
inductive ErrType where
  | rateLimit
  | apiError
  | networkError
  | invalidToken
  | missingAccount
  | invalidContent
  | unknown
deriving DecidableEq

/-- A `PostQueueError` (part_002 lines 28-35): classified type, retryable
flag (constructor default `false`), message. -/
structure PQError where
  type : ErrType
  retryable : Bool
  message : String
deriving DecidableEq

/-- The errors that flow through the queue, distinguished the way
`instanceof` distinguishes them in the source: `PostQueueError`,
`RateLimitError`, other `FacebookAPIError`s, and any other thrown value. -/
inductive JSError where
  | pq (e : PQError)
  | rateLimit (retryAfter : Nat) (message : String)
  | fbAPI (code : String) (message : String)
  | generic (message : String)
deriving DecidableEq

/-- `error.message` of any of the error shapes. -/
def JSError.message : JSError → String
  | .pq e => e.message
  | .rateLimit _ m => m
  | .fbAPI _ m => m
  | .generic m => m

/-- The joined `social_accounts` row as consumed by the processor:
platform string, platform-side account id, access token (`none` models a
missing field, `some ""` an empty string — both falsy in the source), and
the active flag. -/
structure SocialAccount where
  platform : String
  account_id : String
  access_token : Option String
  is_active : Bool
deriving DecidableEq

/-- A `scheduled_posts` row as consumed by the processor.  Optional fields
model columns that may be null/undefined. -/
structure Post where
  id : Nat
  user_id : Nat
  content : Option String
  media_urls : List String
  scheduled_for : Nat
  status : PostStatus
  retry_count : Option Nat
  error_message : Option String
  platform_post_id : Option String
  updated_at : Nat
  social_accounts : Option SocialAccount
deriving DecidableEq

/-- A `db.updateScheduledPost` payload: each field is `some v` when the
update object carries it (for nullable columns, `some none` writes null)
and `none` when the field is absent, in which case the row keeps its
value. -/
structure UpdateData where
  status : Option PostStatus := none
  scheduled_for : Option Nat := none
  retry_count : Option Nat := none
  error_message : Option (Option String) := none
  platform_post_id : Option (Option String) := none
  updated_at : Option Nat := none
deriving DecidableEq

/-- Effect of `db.updateScheduledPost` (supabase.js lines 255-270) on the
matching row: fields present in the payload are overwritten, all others are
untouched. -/
def applyUpdate (p : Post) (u : UpdateData) : Post :=
  { p with
    status := u.status.getD p.status,
    scheduled_for := u.scheduled_for.getD p.scheduled_for,
    retry_count := match u.retry_count with
      | some n => some n
      | none => p.retry_count,
    error_message := u.error_message.getD p.error_message,
    platform_post_id := u.platform_post_id.getD p.platform_post_id,
    updated_at := u.updated_at.getD p.updated_at }

/-! ## Retry policy (part_002 lines 39-47, 331-367) -/

/-- `this.maxRetries` (part_002 line 43). -/
def maxRetries : Nat := 3

/-- `this.retryDelays` (part_002 line 42): 30s, 1m, 5m, 15m in ms. -/
def retryDelays : List Nat := [30000, 60000, 300000, 900000]

/-- `this.retryDelays[Math.min(retryCount - 1, this.retryDelays.length - 1)]`
(part_002 line 356), as a pure function of the 1-based attempt number. -/
def delayForAttempt (attempt : Nat) : Nat :=
  retryDelays.getD (min (attempt - 1) (retryDelays.length - 1)) 0

/-- `error instanceof PostQueueError && !error.retryable` (part_002 line 333). -/
def isNonRetryablePQ : JSError → Bool
  | .pq e => !e.retryable
  | _ => false

/-- `error instanceof PostQueueError && error.type === ERROR_TYPES.INVALID_CONTENT`
(part_002 line 344). -/
def isInvalidContentPQ : JSError → Bool
  | .pq e => e.type = ErrType.invalidContent
  | _ => false

/-- `shouldRetryPost(post, error)` (part_002 lines 331-349), with the three
early-return checks in source order. -/
def shouldRetryPost (post : Post) (e : JSError) : Bool :=
  if isNonRetryablePQ e then false
  else if maxRetries ≤ post.retry_count.getD 0 then false
  else if isInvalidContentPQ e then false
  else true

/-- The update written by `scheduleRetry` (part_002 lines 354-367):
back to `scheduled`, `scheduled_for = now + delay`, incremented
`retry_count`, and a `Retry n: message` error string. -/
def scheduleRetryUpdate (post : Post) (errMsg : String) (now : Nat) : UpdateData :=
  let rc := post.retry_count.getD 0 + 1
  let delay := delayForAttempt rc
  { status := some PostStatus.scheduled,
    scheduled_for := some (now + delay),
    retry_count := some rc,
    error_message := some (some ("Retry " ++ toString rc ++ ": " ++ errMsg)) }

/-- The update written by `updatePostStatus(id, FAILED, {error_message})`
(part_002 lines 189-191 together with 372-385). -/
def failedUpdate (errMsg : String) (now : Nat) : UpdateData :=
  { status := some PostStatus.failed,
    updated_at := some now,
    error_message := some (some errMsg) }

/-- The update written on publish success,
`updatePostStatus(id, POSTED, {platform_post_id, error_message: null})`
(part_002 lines 170-173 together with 372-385). -/
def successUpdate (platformPostId : String) (now : Nat) : UpdateData :=
  { status := some PostStatus.posted,
    updated_at := some now,
    platform_post_id := some (some platformPostId),
    error_message := some none }

/-- The failure branch of `processPost` (part_002 lines 180-195): consult
`shouldRetryPost`, then either the retry update or the failed update. -/
def handleFailure (post : Post) (e : JSError) (now : Nat) : UpdateData :=
  if shouldRetryPost post e then scheduleRetryUpdate post e.message now
  else failedUpdate e.message now

/-! ## Post validator (part_002 lines 201-217) -/

/-- Model of `String.prototype.trim`: strip leading and trailing
whitespace.  (Defined over the character list so that it evaluates in the
kernel.) -/
def jsTrim (s : String) : String :=
  String.mk (((s.data.dropWhile Char.isWhitespace).reverse.dropWhile
    Char.isWhitespace).reverse)

/-- JS truth value of `!post.content?.trim()`. -/
def contentFalsy : Option String → Bool
  | none => true
  | some c => jsTrim c = ""

/-- JS truth value of `!account.access_token`. -/
def tokenFalsy : Option String → Bool
  | none => true
  | some t => t = ""

/-- `validatePost(post)` (part_002 lines 201-217): four checks in source
order, throwing the first violated one. -/
def validatePost (post : Post) : Except PQError Unit :=
  match post.social_accounts with
  | none => Except.error ⟨ErrType.missingAccount, false, "Social account not found"⟩
  | some acct =>
    if acct.is_active = false then
      Except.error ⟨ErrType.missingAccount, false, "Social account is inactive"⟩
    else if contentFalsy post.content then
      Except.error ⟨ErrType.invalidContent, false, "Post content is empty"⟩
    else if tokenFalsy acct.access_token then
      Except.error ⟨ErrType.invalidToken, true, "Access token missing"⟩
    else
      Except.ok ()

/-! ## Cancel operation (part_002 lines 458-484) -/

/-- The update `cancelPost` writes for a cancellable post. -/
def cancelUpdate : UpdateData :=
  { status := some PostStatus.cancelled,
    error_message := some (some "Cancelled by user") }

/-- `postQueue.cancelPost(postId, userId)` (part_002 lines 458-484), acting
on the list of the user's posts returned by `db.getScheduledPosts(userId)`.
Returns the thrown error or `ok`, together with the resulting rows (a thrown
error happens before any write, so the rows are returned unchanged). -/
def cancelPost (userPosts : List Post) (postId : Nat) :
    Except PQError Unit × List Post :=
  match userPosts.find? (fun p => p.id == postId) with
  | none =>
    (Except.error ⟨ErrType.missingAccount, false, "Post not found or access denied"⟩,
     userPosts)
  | some post =>
    if post.status = PostStatus.posted then
      (Except.error ⟨ErrType.invalidContent, false, "Cannot cancel already posted content"⟩,
       userPosts)
    else
      (Except.ok (),
       userPosts.map (fun p => if p.id == postId then applyUpdate p cancelUpdate else p))

/-! ## Concurrency guard (part_002 lines 82-114)

`processQueue` is guarded by the `isProcessing` flag: a tick that sees the
flag held returns at once; otherwise the flag is taken, the body runs (fetch
of due posts, then the per-post pipelines), and the `finally` clause clears
the flag whatever the body did.  `running` is the number of passes currently
in flight, the quantity property P1 bounds. -/

/-- Guard flag plus the count of in-flight passes. -/
structure ProcState where
  isProcessing : Bool
  running : Nat
deriving DecidableEq

/-- Processor state at construction (part_002 lines 39-47). -/
def qInit : ProcState := { isProcessing := false, running := 0 }

/-- A poller tick reaching `processQueue` (lines 82-87): if the guard is held
the call returns immediately (second component `false`: the tick was skipped
and nothing was queued); otherwise the guard is taken and a pass begins. -/
def pollerTick (s : ProcState) : ProcState × Bool :=
  if s.isProcessing then (s, false)
  else ({ isProcessing := true, running := s.running + 1 }, true)

/-- End of a pass: the `finally` (lines 111-113) clears the guard whatever
the body produced — `fetchOutcome` is the result of the `getDuePosts` step,
error included, and does not influence the release. -/
def passEnd (s : ProcState) (fetchOutcome : Except String (List Post)) : ProcState :=
  { isProcessing := false, running := s.running - 1 }

/-- Interleaving of poller ticks and pass completions: any tick may arrive in
any state; a pass completion requires an in-flight pass and applies the
`finally` release for an arbitrary fetch outcome. -/
inductive QStep : ProcState → ProcState → Prop where
  | tick (s : ProcState) : QStep s (pollerTick s).1
  | passDone (s : ProcState) (fetchOutcome : Except String (List Post))
      (h : 0 < s.running) : QStep s (passEnd s fetchOutcome)

/-- States reachable from the initial processor state. -/
def QReach : ProcState → Prop := Relation.ReflTransGen QStep qInit

/-- Guard invariant: the flag is exactly the indicator of an in-flight pass. -/
def QInv (s : ProcState) : Prop :=
  (s.isProcessing = false ∧ s.running = 0) ∨ (s.isProcessing = true ∧ s.running = 1)

/-! ## Platform publishers (part_002 lines 222-326)

Every `facebookAPI` endpoint first calls the shared tracker's `checkLimit`
(throwing `RateLimitError` on denial, in which case no outbound request is
made) and then performs its network request, whose outcome we abstract as a
field of `FBEnv`.  `validateToken` (facebook.js lines 492-513) swallows every
network failure into `{valid: false}`, so apart from a gate denial it always
returns a boolean.  Each publisher wraps its whole `try` body with a `catch`
that reclassifies whatever was thrown. -/

/-- The outbound Graph API operations the processor can invoke. -/
inductive APICall where
  | validateToken
  | publishPagePost
  | publishPagePhoto
  | createInstagramPost
  | publishInstagramPost
deriving DecidableEq

/-- Normalized publisher success value (part_002 lines 264-267, 311-314). -/
structure PublishResult where
  platform_post_id : String
  platform : String
deriving DecidableEq

/-- Network outcomes for one publish attempt: the `is_valid` bit token
introspection would report, and each publish endpoint's response
(`.ok id` or a thrown error). -/
structure FBEnv where
  tokenValid : Bool
  pagePostR : Except JSError String
  pagePhotoR : Except JSError String
  igCreateR : Except JSError String
  igPublishR : Except JSError String

/-- The `RateLimitError` message built by `checkLimit` (facebook.js line 34). -/
def rateMsg (w : Nat) : String :=
  "Rate limit exceeded. Try again in " ++ toString w ++ " seconds."

/-- One gated endpoint call: `checkLimit` first (on denial the
`RateLimitError` propagates, the counter is unchanged and no call is made),
then the environment's outcome, with the performed call recorded. -/
def apiCall (now : Nat) (st : RateLimitState) (c : APICall)
    (res : Except JSError String) :
    Except JSError String × RateLimitState × List APICall :=
  match checkLimit now st with
  | Except.error w => (Except.error (JSError.rateLimit w (rateMsg w)), st, [])
  | Except.ok st' => (res, st', [c])

/-- `facebookAPI.validateToken` as called by the publishers: gated by
`checkLimit`, otherwise returning the introspected validity bit. -/
def validateTokenCall (now : Nat) (st : RateLimitState) (valid : Bool) :
    Except JSError Bool × RateLimitState × List APICall :=
  match checkLimit now st with
  | Except.error w => (Except.error (JSError.rateLimit w (rateMsg w)), st, [])
  | Except.ok st' => (Except.ok valid, st', [APICall.validateToken])

/-- The `try` body of `publishToFacebook` (part_002 lines 239-267): validate
the token, throw a retryable `INVALID_TOKEN` `PostQueueError` if invalid,
then publish a photo post when the post carries media, a text post
otherwise. -/
def publishToFacebookTry (env : FBEnv) (now : Nat) (st : RateLimitState)
    (post : Post) :
    Except JSError PublishResult × RateLimitState × List APICall :=
  match validateTokenCall now st env.tokenValid with
  | (Except.error e, st1, l1) => (Except.error e, st1, l1)
  | (Except.ok valid, st1, l1) =>
    if valid = false then
      (Except.error (JSError.pq
        ⟨ErrType.invalidToken, true, "Facebook access token is invalid"⟩), st1, l1)
    else if 0 < post.media_urls.length then
      match apiCall now st1 APICall.publishPagePhoto env.pagePhotoR with
      | (Except.error e, st2, l2) => (Except.error e, st2, l1 ++ l2)
      | (Except.ok pid, st2, l2) => (Except.ok ⟨pid, "facebook"⟩, st2, l1 ++ l2)
    else
      match apiCall now st1 APICall.publishPagePost env.pagePostR with
      | (Except.error e, st2, l2) => (Except.error e, st2, l1 ++ l2)
      | (Except.ok pid, st2, l2) => (Except.ok ⟨pid, "facebook"⟩, st2, l1 ++ l2)

/-- The `try` body of `publishToInstagram` (part_002 lines 285-314): an empty
media list throws `INVALID_CONTENT` (constructor default: non-retryable)
before any call; otherwise validate the token, create the media container,
then publish it. -/
def publishToInstagramTry (env : FBEnv) (now : Nat) (st : RateLimitState)
    (post : Post) :
    Except JSError PublishResult × RateLimitState × List APICall :=
  if post.media_urls.length = 0 then
    (Except.error (JSError.pq
      ⟨ErrType.invalidContent, false, "Instagram posts require media"⟩), st, [])
  else
    match validateTokenCall now st env.tokenValid with
    | (Except.error e, st1, l1) => (Except.error e, st1, l1)
    | (Except.ok valid, st1, l1) =>
      if valid = false then
        (Except.error (JSError.pq
          ⟨ErrType.invalidToken, true, "Instagram access token is invalid"⟩), st1, l1)
      else
        match apiCall now st1 APICall.createInstagramPost env.igCreateR with
        | (Except.error e, st2, l2) => (Except.error e, st2, l1 ++ l2)
        | (Except.ok _cid, st2, l2) =>
          match apiCall now st2 APICall.publishInstagramPost env.igPublishR with
          | (Except.error e, st3, l3) => (Except.error e, st3, l1 ++ l2 ++ l3)
          | (Except.ok pid, st3, l3) =>
            (Except.ok ⟨pid, "instagram"⟩, st3, l1 ++ l2 ++ l3)

/-- The `catch` shared in shape by both publishers (part_002 lines 269-278
and 316-325): `RateLimitError` becomes a retryable `RATE_LIMIT`; any other
`FacebookAPIError` becomes an `API_ERROR`, retryable unless the code is
`OAuthException`; anything else — including a `PostQueueError` thrown inside
the `try` — is rewrapped as a retryable `NETWORK_ERROR`, keeping only the
message. -/
def wrapFBError : JSError → PQError
  | JSError.rateLimit _ m => ⟨ErrType.rateLimit, true, m⟩
  | JSError.fbAPI code m => ⟨ErrType.apiError, !(code == "OAuthException"), m⟩
  | JSError.pq e => ⟨ErrType.networkError, true, e.message⟩
  | JSError.generic m => ⟨ErrType.networkError, true, m⟩

/-- `publishToFacebook` (part_002 lines 238-279): the `try` body with its
`catch` reclassification. -/
def publishToFacebook (env : FBEnv) (now : Nat) (st : RateLimitState)
    (post : Post) :
    Except PQError PublishResult × RateLimitState × List APICall :=
  match publishToFacebookTry env now st post with
  | (Except.error e, st', l) => (Except.error (wrapFBError e), st', l)
  | (Except.ok r, st', l) => (Except.ok r, st', l)

/-- `publishToInstagram` (part_002 lines 284-326): the `try` body with its
`catch` reclassification. -/
def publishToInstagram (env : FBEnv) (now : Nat) (st : RateLimitState)
    (post : Post) :
    Except PQError PublishResult × RateLimitState × List APICall :=
  match publishToInstagramTry env now st post with
  | (Except.error e, st', l) => (Except.error (wrapFBError e), st', l)
  | (Except.ok r, st', l) => (Except.ok r, st', l)

/-- `publishPost` (part_002 lines 222-233): dispatch on the account's
platform string.  (With no joined account the source would raise a TypeError
on destructuring; `processPost` always validates first, so that unreachable
path is folded into the default unsupported-platform error.) -/
def publishPost (env : FBEnv) (now : Nat) (st : RateLimitState) (post : Post) :
    Except PQError PublishResult × RateLimitState × List APICall :=
  match post.social_accounts with
  | some acct =>
    if acct.platform = "facebook" then publishToFacebook env now st post
    else if acct.platform = "instagram" then publishToInstagram env now st post
    else (Except.error ⟨ErrType.unknown, false,
            "Unsupported platform: " ++ acct.platform⟩, st, [])
  | none =>
    (Except.error ⟨ErrType.unknown, false, "Unsupported platform: undefined"⟩, st, [])

/-- First-error projection used to state retryability of a publish outcome. -/
def resultErrRetryable : Except PQError PublishResult → Bool
  | Except.error e => e.retryable
  | Except.ok _ => false

/-! ## Concrete fixtures used by witnesses and counterexamples -/

/-- An active Instagram account. -/
def igAccount : SocialAccount :=
  { platform := "instagram", account_id := "ig1",
    access_token := some "tok", is_active := true }

/-- An active Facebook account. -/
def fbAccount : SocialAccount :=
  { platform := "facebook", account_id := "page1",
    access_token := some "tok", is_active := true }

/-- An Instagram-bound post with an empty media list and no prior retries. -/
def igPostNoMedia : Post :=
  { id := 10, user_id := 7, content := some "caption", media_urls := [],
    scheduled_for := 0, status := PostStatus.processing, retry_count := some 0,
    error_message := none, platform_post_id := none, updated_at := 0,
    social_accounts := some igAccount }

/-- An Instagram-bound post carrying one media reference. -/
def igPostWithMedia : Post :=
  { igPostNoMedia with id := 11, media_urls := ["https://img.example/1.jpg"] }

/-- A text-only Facebook-bound post. -/
def fbPostText : Post :=
  { igPostNoMedia with id := 12, social_accounts := some fbAccount }

/-- An environment where every network call succeeds. -/
def envAllOk : FBEnv :=
  { tokenValid := true, pagePostR := Except.ok "fb_post_1",
    pagePhotoR := Except.ok "fb_photo_1", igCreateR := Except.ok "ig_container_1",
    igPublishR := Except.ok "ig_post_1" }

/-- Like `envAllOk` but introspection reports the token invalid. -/
def envBadToken : FBEnv := { envAllOk with tokenValid := false }

/-- A fresh tracker window with the given capacity. -/
def gateFresh (maxR : Nat) : RateLimitState :=
  { requests := 0, resetTime := windowMs, maxRequests := maxR }

/-! ## Theorems -/

lemma rollWindow_of_le (now : Nat) (s : RateLimitState)
    (h : now ≤ s.resetTime) : rollWindow now s = s := by
  unfold rollWindow
  rw [if_neg (by omega)]

lemma checkLimit_grant (now : Nat) (s : RateLimitState)
    (hin : now ≤ s.resetTime) (hcap : s.requests < s.maxRequests) :
    checkLimit now s = Except.ok { s with requests := s.requests + 1 } := by
  simp only [checkLimit, rollWindow_of_le now s hin]
  rw [if_neg (by omega)]

lemma checkLimit_deny (now : Nat) (s : RateLimitState)
    (hin : now ≤ s.resetTime) (hfull : s.maxRequests ≤ s.requests) :
    checkLimit now s = Except.error ((s.resetTime - now + 999) / 1000) := by
  simp only [checkLimit, rollWindow_of_le now s hin]
  rw [if_pos hfull]

lemma runChecks_all_granted (ts : List Nat) (s : RateLimitState)
    (hin : ∀ t ∈ ts, t ≤ s.resetTime)
    (hcap : s.requests + ts.length ≤ s.maxRequests) :
    runChecks ts s =
      (List.replicate ts.length (Except.ok ()),
       { s with requests := s.requests + ts.length }) := by
  induction ts generalizing s with
  | nil =>
    simp [runChecks]
  | cons t ts ih =>
    have hcap' : s.requests + (ts.length + 1) ≤ s.maxRequests := by
      simpa [List.length_cons] using hcap
    have ht : t ≤ s.resetTime := hin t (List.mem_cons_self t ts)
    have hlt : s.requests < s.maxRequests := by omega
    have hih := ih { s with requests := s.requests + 1 }
      (fun u hu => hin u (List.mem_cons_of_mem t hu)) (by simp; omega)
    simp only [runChecks, checkLimit_grant t s ht hlt, hih,
      List.length_cons, List.replicate_succ, Prod.mk.injEq,
      RateLimitState.mk.injEq]
    refine ⟨trivial, by omega, trivial, trivial⟩

lemma runChecks_append (as bs : List Nat) (s : RateLimitState) :
    runChecks (as ++ bs) s =
      ((runChecks as s).1 ++ (runChecks bs (runChecks as s).2).1,
       (runChecks bs (runChecks as s).2).2) := by
  induction as generalizing s with
  | nil => simp [runChecks]
  | cons a as ih =>
    rw [List.cons_append, runChecks, runChecks]
    cases h : checkLimit a s with
    | ok s' => simp [ih s']
    | error w => simp [ih s]

/-- C1: for the rate gate with `maxRequests = M` and window length `windowMs`,
`M + 1` permission checks within the window grant exactly the first `M` and
deny the last with `retryAfterSeconds = ceil((resetTime - now)/1000)`; and on
any check whose `now` is strictly past the reset timestamp, the tracker result
is exactly that of the state with the counter reset to 0 and the reset
timestamp moved to `now + windowMs`, i.e. the reset happens before the
count-versus-max comparison. -/
theorem rate_gate_window_correct (M : Nat) (s : RateLimitState)
    (ts : List Nat) (tlast : Nat)
    (hreq : s.requests = 0) (hmax : s.maxRequests = M) (hlen : ts.length = M)
    (hin : ∀ t ∈ ts, t ≤ s.resetTime) (hlast : tlast ≤ s.resetTime) :
    (runChecks (ts ++ [tlast]) s).1 =
      List.replicate M (Except.ok ()) ++
        [Except.error ((s.resetTime - tlast + 999) / 1000)]
    ∧ (∀ (now : Nat) (s' : RateLimitState), s'.resetTime < now →
        checkLimit now s' =
          checkLimit now { s' with requests := 0, resetTime := now + windowMs }) := by
  constructor
  · rw [runChecks_append, runChecks_all_granted ts s hin (by omega)]
    have hdeny := checkLimit_deny tlast { s with requests := s.requests + ts.length }
      (by simpa using hlast) (by simp; omega)
    simp only [runChecks, hdeny]
    simp [hlen, hreq]
  · intro now s' h
    have hroll : rollWindow now s' =
        { s' with requests := 0, resetTime := now + windowMs } := by
      unfold rollWindow
      rw [if_pos h]
    have hkeep : rollWindow now ({ s' with requests := 0, resetTime := now + windowMs }) =
        { s' with requests := 0, resetTime := now + windowMs } := by
      apply rollWindow_of_le
      simp [windowMs]
    simp only [checkLimit, hroll, hkeep]

/-- Witness for C1 at `M = 2`, window state `⟨0, 10000, 2⟩`, checks at
times 1, 2 and 3: two grants then a denial with
`ceil((10000 - 3)/1000) = 10`, and a concrete lazy-roll instance. -/
theorem rate_gate_window_correct_witness :
    (runChecks [1, 2, 3] ⟨0, 10000, 2⟩).1 =
      List.replicate 2 (Except.ok ()) ++ [Except.error 10]
    ∧ checkLimit 20 ⟨7, 15, 9⟩ =
        checkLimit 20 { requests := 0, resetTime := 20 + windowMs, maxRequests := 9 } := by
  have h := rate_gate_window_correct 2 ⟨0, 10000, 2⟩ [1, 2] 3
    rfl rfl rfl (by decide) (by decide)
  exact ⟨h.1, h.2 20 ⟨7, 15, 9⟩ (by decide)⟩

/-- C2: `shouldRetry` is false exactly when the failure is explicitly marked
non-retryable, or `retry_count >= maxRetries` (3), or the failure is a
content-validation failure; in particular a post at `retry_count = 3` failing
with a retryable platform error is marked failed, not rescheduled. -/
theorem shouldRetry_characterization :
    (∀ (post : Post) (e : JSError),
      shouldRetryPost post e = false ↔
        (isNonRetryablePQ e = true ∨ maxRetries ≤ post.retry_count.getD 0 ∨
         isInvalidContentPQ e = true))
    ∧ (∀ (post : Post) (msg : String) (now : Nat),
        post.retry_count = some 3 →
        shouldRetryPost post (JSError.pq ⟨ErrType.apiError, true, msg⟩) = false ∧
        handleFailure post (JSError.pq ⟨ErrType.apiError, true, msg⟩) now =
          failedUpdate msg now) := by
  constructor
  · intro post e
    unfold shouldRetryPost
    split_ifs with h1 h2 h3 <;> simp_all
  · intro post msg now h
    have hf : shouldRetryPost post (JSError.pq ⟨ErrType.apiError, true, msg⟩) = false := by
      simp [shouldRetryPost, isNonRetryablePQ, isInvalidContentPQ, h, maxRetries]
    refine ⟨hf, ?_⟩
    unfold handleFailure
    rw [hf]
    simp [JSError.message]

/-- Witness for C2: a post at `retry_count = 3` with a retryable API error is
not retried; the failure write marks it failed. -/
theorem shouldRetry_characterization_witness :
    shouldRetryPost { igPostNoMedia with retry_count := some 3 }
        (JSError.pq ⟨ErrType.apiError, true, "boom"⟩) = false
    ∧ handleFailure { igPostNoMedia with retry_count := some 3 }
        (JSError.pq ⟨ErrType.apiError, true, "boom"⟩) 50 = failedUpdate "boom" 50 :=
  shouldRetry_characterization.2 { igPostNoMedia with retry_count := some 3 } "boom" 50 rfl

/-- C3: the retry delay is the fixed ascending table 30s/60s/5min/15min of the
1-based attempt number, clamped to the last entry from attempt 4 on; a
scheduled retry returns the post to `scheduled` with
`scheduled_for = now + delay` and `retry_count` incremented, so a first
attempt failing with a network error is rescheduled at `now + 30s` with
`retry_count = 1`. -/
theorem retry_delay_schedule :
    delayForAttempt 1 = 30000 ∧ delayForAttempt 2 = 60000 ∧
    delayForAttempt 3 = 300000 ∧ (∀ n, 4 ≤ n → delayForAttempt n = 900000)
    ∧ (∀ (post : Post) (msg : String) (now : Nat),
        (scheduleRetryUpdate post msg now).status = some PostStatus.scheduled ∧
        (scheduleRetryUpdate post msg now).scheduled_for =
          some (now + delayForAttempt (post.retry_count.getD 0 + 1)) ∧
        (scheduleRetryUpdate post msg now).retry_count =
          some (post.retry_count.getD 0 + 1))
    ∧ (∀ (post : Post) (msg : String) (now : Nat),
        post.retry_count.getD 0 = 0 →
        handleFailure post (JSError.pq ⟨ErrType.networkError, true, msg⟩) now =
          scheduleRetryUpdate post msg now ∧
        (scheduleRetryUpdate post msg now).scheduled_for = some (now + 30000) ∧
        (scheduleRetryUpdate post msg now).retry_count = some 1) := by
  refine ⟨rfl, rfl, rfl, ?_, ?_, ?_⟩
  · intro n hn
    have h3 : min (n - 1) (retryDelays.length - 1) = 3 := by
      simp [retryDelays]
      omega
    unfold delayForAttempt
    rw [h3]
    rfl
  · intro post msg now
    exact ⟨rfl, rfl, rfl⟩
  · intro post msg now h
    have hr : shouldRetryPost post (JSError.pq ⟨ErrType.networkError, true, msg⟩) = true := by
      simp [shouldRetryPost, isNonRetryablePQ, isInvalidContentPQ, maxRetries, h]
    refine ⟨?_, ?_, ?_⟩
    · unfold handleFailure
      rw [hr]
      simp [JSError.message]
    · simp [scheduleRetryUpdate, h, delayForAttempt, retryDelays]
    · simp [scheduleRetryUpdate, h]

/-- Witness for C3: the clamp at attempt 6, and a concrete first-attempt
network failure rescheduled 30 seconds out with `retry_count = 1`. -/
theorem retry_delay_schedule_witness :
    delayForAttempt 6 = 900000
    ∧ handleFailure { igPostNoMedia with retry_count := none }
        (JSError.pq ⟨ErrType.networkError, true, "socket hang up"⟩) 1000 =
        scheduleRetryUpdate { igPostNoMedia with retry_count := none }
          "socket hang up" 1000
    ∧ scheduleRetryUpdate { igPostNoMedia with retry_count := none }
        "socket hang up" 1000 =
        { status := some PostStatus.scheduled, scheduled_for := some 31000,
          retry_count := some 1,
          error_message := some (some "Retry 1: socket hang up") } := by
  refine ⟨retry_delay_schedule.2.2.2.1 6 (by decide), ?_, rfl⟩
  exact (retry_delay_schedule.2.2.2.2.2
    { igPostNoMedia with retry_count := none } "socket hang up" 1000 rfl).1

/-- C10: the successful-publish write sets status to `posted`, persists the
platform post id, nulls `error_message`, stamps `updated_at`, and leaves
every other field of the row (content, media list, retry count, schedule
time, ...) unchanged. -/
theorem success_write_frame (p : Post) (pid : String) (now : Nat) :
    applyUpdate p (successUpdate pid now) =
      { p with status := PostStatus.posted, platform_post_id := some pid,
               error_message := none, updated_at := now } := by
  simp [applyUpdate, successUpdate]

lemma qstep_preserves_inv (s s' : ProcState) (hs : QInv s) (h : QStep s s') :
    QInv s' := by
  cases h with
  | tick =>
    rcases hs with ⟨h1, h2⟩ | ⟨h1, h2⟩
    · right
      simp [pollerTick, h1, h2]
    · right
      simp [pollerTick, h1]
      exact h2
  | passDone f hr =>
    rcases hs with ⟨h1, h2⟩ | ⟨h1, h2⟩
    · omega
    · left
      simp [passEnd, h2]

/-- C4: at most one queue-processing pass is ever in flight — in every state
reachable by any interleaving of ticks and pass completions the number of
running passes is at most 1; a tick that observes the guard held leaves the
state untouched and reports the tick skipped; and the end-of-pass release
clears the guard for every fetch outcome, the fetch step failing included. -/
theorem guard_exclusivity :
    (∀ s : ProcState, QReach s → s.running ≤ 1)
    ∧ (∀ s : ProcState, s.isProcessing = true → pollerTick s = (s, false))
    ∧ (∀ (s : ProcState) (fetchOutcome : Except String (List Post)),
        (passEnd s fetchOutcome).isProcessing = false) := by
  refine ⟨?_, ?_, ?_⟩
  · intro s h
    have hinv : QInv s := by
      induction h with
      | refl => exact Or.inl ⟨rfl, rfl⟩
      | tail hab hbc ih => exact qstep_preserves_inv _ _ ih hbc
    rcases hinv with ⟨_, h2⟩ | ⟨_, h2⟩ <;> omega
  · intro s h
    simp [pollerTick, h]
  · intro s f
    rfl

/-- Witness for C4: the initial state is reachable and holds no pass; a tick
in a busy state is skipped unchanged; the release after a failed fetch clears
the guard. -/
theorem guard_exclusivity_witness :
    qInit.running ≤ 1
    ∧ pollerTick { isProcessing := true, running := 1 } =
        ({ isProcessing := true, running := 1 }, false)
    ∧ (passEnd { isProcessing := true, running := 1 }
        (Except.error "Failed to fetch due posts")).isProcessing = false :=
  ⟨guard_exclusivity.1 qInit Relation.ReflTransGen.refl,
   guard_exclusivity.2.1 _ rfl,
   guard_exclusivity.2.2 _ _⟩

/-- C6: cancelling never clobbers a completed publish — if the post the
source looks up is already `posted`, `cancelPost` throws and returns the rows
unchanged; a found post in any other status is written to `cancelled`. -/
theorem cancel_refuses_posted (userPosts : List Post) (post : Post) (postId : Nat)
    (hfind : userPosts.find? (fun p => p.id == postId) = some post) :
    (post.status = PostStatus.posted →
      cancelPost userPosts postId =
        (Except.error ⟨ErrType.invalidContent, false,
          "Cannot cancel already posted content"⟩, userPosts))
    ∧ (post.status ≠ PostStatus.posted →
        (cancelPost userPosts postId).1 = Except.ok () ∧
        ∀ q ∈ (cancelPost userPosts postId).2, q.id = postId →
          q.status = PostStatus.cancelled ∧
          q.error_message = some "Cancelled by user") := by
  constructor
  · intro hp
    simp only [cancelPost, hfind]
    rw [if_pos hp]
  · intro hp
    simp only [cancelPost, hfind]
    rw [if_neg hp]
    refine ⟨rfl, ?_⟩
    intro q hq hid
    rcases List.mem_map.1 hq with ⟨r, hr, hqr⟩
    by_cases h : r.id = postId
    · rw [if_pos (by simpa using h)] at hqr
      rw [← hqr]
      exact ⟨rfl, rfl⟩
    · rw [if_neg (by simpa using h)] at hqr
      rw [← hqr] at hid
      exact absurd hid h

/-- Witness for C6: a `posted` post is refused with the rows unchanged, and a
`scheduled` post is written to `cancelled`. -/
theorem cancel_refuses_posted_witness :
    cancelPost [{ igPostNoMedia with id := 21, status := PostStatus.posted }] 21 =
      (Except.error ⟨ErrType.invalidContent, false,
        "Cannot cancel already posted content"⟩,
       [{ igPostNoMedia with id := 21, status := PostStatus.posted }])
    ∧ (cancelPost [{ igPostNoMedia with id := 22 }] 22).1 = Except.ok ()
    ∧ ∀ q ∈ (cancelPost [{ igPostNoMedia with id := 22 }] 22).2, q.id = 22 →
        q.status = PostStatus.cancelled ∧ q.error_message = some "Cancelled by user" := by
  refine ⟨?_, ?_⟩
  · exact (cancel_refuses_posted
      [{ igPostNoMedia with id := 21, status := PostStatus.posted }]
      { igPostNoMedia with id := 21, status := PostStatus.posted } 21 rfl).1 rfl
  · exact (cancel_refuses_posted [{ igPostNoMedia with id := 22 }]
      { igPostNoMedia with id := 22 } 22 rfl).2 (by decide)

/-- C7: validation applies its four rules in source order, short-circuiting
on the first violation — no account or an inactive account gives
`MISSING_ACCOUNT`, trimmed-empty content gives `INVALID_CONTENT`, a falsy
credential gives `INVALID_TOKEN` flagged retryable, and when all four pass
the (side-effect-free) validator succeeds. -/
theorem validate_rules_in_order :
    (∀ post : Post, post.social_accounts = none →
      validatePost post =
        Except.error ⟨ErrType.missingAccount, false, "Social account not found"⟩)
    ∧ (∀ (post : Post) (acct : SocialAccount), post.social_accounts = some acct →
        acct.is_active = false →
        validatePost post =
          Except.error ⟨ErrType.missingAccount, false, "Social account is inactive"⟩)
    ∧ (∀ (post : Post) (acct : SocialAccount), post.social_accounts = some acct →
        acct.is_active = true → contentFalsy post.content = true →
        validatePost post =
          Except.error ⟨ErrType.invalidContent, false, "Post content is empty"⟩)
    ∧ (∀ (post : Post) (acct : SocialAccount), post.social_accounts = some acct →
        acct.is_active = true → contentFalsy post.content = false →
        tokenFalsy acct.access_token = true →
        validatePost post =
          Except.error ⟨ErrType.invalidToken, true, "Access token missing"⟩)
    ∧ (∀ (post : Post) (acct : SocialAccount), post.social_accounts = some acct →
        acct.is_active = true → contentFalsy post.content = false →
        tokenFalsy acct.access_token = false →
        validatePost post = Except.ok ()) := by
  refine ⟨?_, ?_, ?_, ?_, ?_⟩
  · intro post h
    simp [validatePost, h]
  · intro post acct h hact
    simp [validatePost, h, hact]
  · intro post acct h hact hc
    simp [validatePost, h, hact, hc]
  · intro post acct h hact hc ht
    simp [validatePost, h, hact, hc, ht]
  · intro post acct h hact hc ht
    simp [validatePost, h, hact, hc, ht]

/-- Witness for C7: each of the five validator outcomes at a concrete post —
inactive account before empty content (rule order), empty trimmed content,
empty credential, missing account, and a fully valid post. -/
theorem validate_rules_in_order_witness :
    validatePost { igPostNoMedia with social_accounts := none } =
      Except.error ⟨ErrType.missingAccount, false, "Social account not found"⟩
    ∧ validatePost { igPostNoMedia with
        content := none,
        social_accounts := some { igAccount with is_active := false } } =
      Except.error ⟨ErrType.missingAccount, false, "Social account is inactive"⟩
    ∧ validatePost { igPostNoMedia with content := some "   " } =
      Except.error ⟨ErrType.invalidContent, false, "Post content is empty"⟩
    ∧ validatePost { igPostNoMedia with
        social_accounts := some { igAccount with access_token := some "" } } =
      Except.error ⟨ErrType.invalidToken, true, "Access token missing"⟩
    ∧ validatePost igPostNoMedia = Except.ok () := by
  refine ⟨?_, ?_, ?_, ?_, ?_⟩
  · exact validate_rules_in_order.1 _ rfl
  · exact validate_rules_in_order.2.1
      { igPostNoMedia with
        content := none,
        social_accounts := some { igAccount with is_active := false } }
      { igAccount with is_active := false } rfl rfl
  · exact validate_rules_in_order.2.2.1
      { igPostNoMedia with content := some "   " } igAccount rfl rfl (by decide)
  · exact validate_rules_in_order.2.2.2.1
      { igPostNoMedia with
        social_accounts := some { igAccount with access_token := some "" } }
      { igAccount with access_token := some "" } rfl rfl (by decide) rfl
  · exact validate_rules_in_order.2.2.2.2 igPostNoMedia igAccount rfl rfl
      (by decide) (by decide)

/-- C5: what the code actually does on an Instagram post with an empty media
list — the publisher throws before any network call (empty trace), but the
catch-all rewraps the `INVALID_CONTENT` error as a retryable
`NETWORK_ERROR`, so `shouldRetryPost` returns true and the outcome handler
reschedules the post instead of marking it failed. -/
theorem instagram_no_media_is_retried :
    publishToInstagram envAllOk 0 (gateFresh 200) igPostNoMedia =
      (Except.error ⟨ErrType.networkError, true, "Instagram posts require media"⟩,
       gateFresh 200, [])
    ∧ shouldRetryPost igPostNoMedia
        (JSError.pq ⟨ErrType.networkError, true, "Instagram posts require media"⟩) = true
    ∧ handleFailure igPostNoMedia
        (JSError.pq ⟨ErrType.networkError, true, "Instagram posts require media"⟩) 0 =
      scheduleRetryUpdate igPostNoMedia "Instagram posts require media" 0
    ∧ (scheduleRetryUpdate igPostNoMedia "Instagram posts require media" 0).status =
      some PostStatus.scheduled :=
  ⟨rfl, rfl, rfl, rfl⟩

/-- C8 counterexample: with introspection reporting the token invalid, the
publish attempt fails with `retryable = true` (a rewrapped `NETWORK_ERROR`),
not the non-retryable failure the claim states; only the introspection call
was made. -/
theorem invalid_token_failure_is_retryable :
    publishToFacebook envBadToken 0 (gateFresh 200) fbPostText =
      (Except.error ⟨ErrType.networkError, true, "Facebook access token is invalid"⟩,
       { requests := 1, resetTime := windowMs, maxRequests := 200 },
       [APICall.validateToken])
    ∧ resultErrRetryable
        (publishToFacebook envBadToken 0 (gateFresh 200) fbPostText).1 = true :=
  ⟨rfl, rfl⟩

/-- C8 (amended): on every publish attempt — any environment, tracker state
and post — the publisher's call trace is either empty (the gate denied the
very first call) or begins with the credential introspection call, so the
credential is validated before the first outbound publish call; and when
introspection reports the credential invalid, the attempt fails with a
failure classified retryable and neither publish endpoint is called. -/
theorem credential_checked_before_publish (env : FBEnv) (now : Nat)
    (st : RateLimitState) (post : Post) :
    ((publishToFacebook env now st post).2.2 = [] ∨
      (publishToFacebook env now st post).2.2.head? = some APICall.validateToken)
    ∧ (env.tokenValid = false →
        resultErrRetryable (publishToFacebook env now st post).1 = true
        ∧ APICall.publishPagePost ∉ (publishToFacebook env now st post).2.2
        ∧ APICall.publishPagePhoto ∉ (publishToFacebook env now st post).2.2
        ∧ ((publishToFacebook env now st post).2.2 = [] ∨
           (publishToFacebook env now st post).2.2 = [APICall.validateToken])) := by
  constructor
  · cases hc : checkLimit now st with
    | error w =>
      simp [publishToFacebook, publishToFacebookTry, validateTokenCall, hc]
    | ok st' =>
      by_cases htv : env.tokenValid = false
      · simp [publishToFacebook, publishToFacebookTry, validateTokenCall, hc, htv]
      · by_cases hm : 0 < post.media_urls.length
        · cases hc2 : checkLimit now st' <;> cases hp : env.pagePhotoR <;>
            simp [publishToFacebook, publishToFacebookTry, validateTokenCall,
              apiCall, hc, hc2, hp, htv, hm]
        · cases hc2 : checkLimit now st' <;> cases hq : env.pagePostR <;>
            simp [publishToFacebook, publishToFacebookTry, validateTokenCall,
              apiCall, hc, hc2, hq, htv, hm]
  · intro htok
    cases hc : checkLimit now st with
    | error w =>
      simp [publishToFacebook, publishToFacebookTry, validateTokenCall, hc,
        wrapFBError, resultErrRetryable]
    | ok st' =>
      simp [publishToFacebook, publishToFacebookTry, validateTokenCall, hc, htok,
        wrapFBError, resultErrRetryable]

/-- Witness for the amended C8: the introspection-first trace shape and the
invalid-credential consequences at a concrete bad-token environment. -/
theorem credential_checked_before_publish_witness :
    ((publishToFacebook envBadToken 5 (gateFresh 3) fbPostText).2.2 = [] ∨
      (publishToFacebook envBadToken 5 (gateFresh 3) fbPostText).2.2.head? =
        some APICall.validateToken)
    ∧ (resultErrRetryable
        (publishToFacebook envBadToken 5 (gateFresh 3) fbPostText).1 = true
       ∧ APICall.publishPagePost ∉
           (publishToFacebook envBadToken 5 (gateFresh 3) fbPostText).2.2
       ∧ APICall.publishPagePhoto ∉
           (publishToFacebook envBadToken 5 (gateFresh 3) fbPostText).2.2
       ∧ ((publishToFacebook envBadToken 5 (gateFresh 3) fbPostText).2.2 = [] ∨
          (publishToFacebook envBadToken 5 (gateFresh 3) fbPostText).2.2 =
            [APICall.validateToken])) :=
  ⟨(credential_checked_before_publish envBadToken 5 (gateFresh 3) fbPostText).1,
   (credential_checked_before_publish envBadToken 5 (gateFresh 3) fbPostText).2 rfl⟩

/-- C9 counterexample: a successful Instagram publish advances the one
shared tracker to 3 requests, after which a Facebook publish attempt — with
zero Facebook requests made so far — is denied by the gate without any call:
the two platforms consume each other's capacity. -/
theorem instagram_consumes_facebook_capacity :
    (publishToInstagram envAllOk 0 (gateFresh 3) igPostWithMedia).1 =
      Except.ok ⟨"ig_post_1", "instagram"⟩
    ∧ (publishToInstagram envAllOk 0 (gateFresh 3) igPostWithMedia).2.1.requests = 3
    ∧ (publishToFacebook envAllOk 0
        (publishToInstagram envAllOk 0 (gateFresh 3) igPostWithMedia).2.1
        fbPostText).1 =
      Except.error ⟨ErrType.rateLimit, true, rateMsg 3600⟩
    ∧ (publishToFacebook envAllOk 0
        (publishToInstagram envAllOk 0 (gateFresh 3) igPostWithMedia).2.1
        fbPostText).2.2 = [] :=
  ⟨rfl, rfl, rfl, rfl⟩

/-- C9 (amended): the rate gate keeps one single counter shared by every
platform — the tracker state threaded through both publishers is the same,
and a successful Instagram publish (introspection + container create +
publish) advances that shared counter by 3, reducing the capacity every
other platform's calls draw from. -/
theorem gate_shared_across_platforms (env : FBEnv) (now : Nat)
    (st : RateLimitState) (post : Post) (cid pid : String)
    (hin : now ≤ st.resetTime) (hcap : st.requests + 3 ≤ st.maxRequests)
    (hmedia : post.media_urls.length ≠ 0) (htok : env.tokenValid = true)
    (hcr : env.igCreateR = Except.ok cid) (hpr : env.igPublishR = Except.ok pid) :
    publishToInstagram env now st post =
      (Except.ok ⟨pid, "instagram"⟩,
       { st with requests := st.requests + 3 },
       [APICall.validateToken, APICall.createInstagramPost,
        APICall.publishInstagramPost]) := by
  obtain ⟨r, rt, mx⟩ := st
  simp only at hin hcap
  have h1 : checkLimit now ⟨r, rt, mx⟩ = Except.ok ⟨r + 1, rt, mx⟩ := by
    simpa using checkLimit_grant now ⟨r, rt, mx⟩ hin (by simp; omega)
  have h2 : checkLimit now ⟨r + 1, rt, mx⟩ = Except.ok ⟨r + 1 + 1, rt, mx⟩ := by
    simpa using checkLimit_grant now ⟨r + 1, rt, mx⟩ hin (by simp; omega)
  have h3 : checkLimit now ⟨r + 1 + 1, rt, mx⟩ = Except.ok ⟨r + 1 + 1 + 1, rt, mx⟩ := by
    simpa using checkLimit_grant now ⟨r + 1 + 1, rt, mx⟩ hin (by simp; omega)
  simp [publishToInstagram, publishToInstagramTry, validateTokenCall, apiCall,
    h1, h2, h3, hcr, hpr, htok, hmedia]

/-- Witness for the amended C9: a concrete Instagram publish against a
3-capacity window consumes exactly the 3 shared permits. -/
theorem gate_shared_across_platforms_witness :
    publishToInstagram envAllOk 0 (gateFresh 3) igPostWithMedia =
      (Except.ok ⟨"ig_post_1", "instagram"⟩,
       { gateFresh 3 with requests := (gateFresh 3).requests + 3 },
       [APICall.validateToken, APICall.createInstagramPost,
        APICall.publishInstagramPost]) :=
  gate_shared_across_platforms envAllOk 0 (gateFresh 3) igPostWithMedia
    "ig_container_1" "ig_post_1" (by decide) (by decide) (by decide) rfl rfl rfl
